import Mathlib

/-
Verification development for the hospital-directory bulk-ingestion pipeline
(app/models.py, app/routers/bulk_realtime.py, app/routers/hospitals.py,
app/routers/hospitals_optimized.py, app/routers/resume.py,
app/routers/validation.py, app/routers/websockets.py).

Python strings are modelled as Lean `String`; `str.strip()` and `str.lower()`
are modelled over the underlying character list (ASCII whitespace and ASCII
case, which covers every token the code compares against).
-/

namespace App

/-- Model of Python `str.strip()`: drop whitespace from both ends. -/
def pyStrip (s : String) : String :=
  String.mk (((s.data.dropWhile Char.isWhitespace).reverse.dropWhile Char.isWhitespace).reverse)

/-- Model of Python `str.lower()`. -/
def pyLower (s : String) : String :=
  String.mk (s.data.map Char.toLower)

/-- The null-like token test `x.lower() in ["nan", "none", ""]` used by every
row loop (e.g. bulk_realtime.py lines 155-165). -/
def isNullTok (s : String) : Bool :=
  pyLower s == "nan" || pyLower s == "none" || s == ""

/-- Model of `(str(x).strip() or None)`: the phone normalization of the row
loops (bulk_realtime.py line 152). -/
def stripOrNone (s : String) : Option String :=
  if pyStrip s == "" then none else some (pyStrip s)

/-- One candidate row after field extraction: the three `str(row.get(...))`
values fed to a row-loop iteration, before stripping. -/
structure RawRow where
  name : String
  address : String
  phone : String
deriving Repr, DecidableEq

def normName (r : RawRow) : String := pyStrip r.name

def normAddress (r : RawRow) : String := pyStrip r.address

def normPhone (r : RawRow) : Option String := stripOrNone r.phone

/-- The `phone is None or phone.lower() in ["nan", "none", ""]` test. -/
def phoneAbsent : Option String → Bool
  | none => true
  | some p => isNullTok p

/-- The skip test of the row loops (bulk_realtime.py lines 154-159):
`(not name and not address and not phone) or (name.lower() in [...] and
address.lower() in [...] and (phone is None or phone.lower() in [...]))`. -/
def isEmptyRow (r : RawRow) : Bool :=
  (normName r == "" && normAddress r == "" && (normPhone r).isNone)
  || (isNullTok (normName r) && isNullTok (normAddress r) && phoneAbsent (normPhone r))

/-- The required-field test of the row loops (bulk_realtime.py lines 161-165):
`not name or not address or name.lower() in [...] or address.lower() in [...]`. -/
def missingRequired (r : RawRow) : Bool :=
  normName r == "" || normAddress r == "" || isNullTok (normName r) || isNullTok (normAddress r)

/-- Per-row classification outcome. -/
inductive RowOutcome where
  | skipped : RowOutcome
  | rejected (error : String) : RowOutcome
  | accepted (name address : String) (phone : Option String) : RowOutcome
deriving Repr, DecidableEq

/-- The row validator as implemented by every row loop of the repository
(validation.py lines 134-158, hospitals.py lines 230-254, bulk_realtime.py
lines 143-165): skip fully-empty rows, then require name and address,
otherwise accept the stripped fields. -/
def validateRow (r : RawRow) : RowOutcome :=
  if isEmptyRow r then RowOutcome.skipped
  else if missingRequired r then RowOutcome.rejected ("Name and address are required")
  else RowOutcome.accepted (normName r) (normAddress r) (normPhone r)

/-- Absence of a field in the words of the spec (section 4.2): trimmed string
whose case-insensitive value is "nan", "none", or empty. -/
def specAbsentField (s : String) : Bool := isNullTok (pyStrip s)

/-- Normalization in the words of the spec: trimmed, absent values dropped. -/
def specNormField (s : String) : Option String :=
  if specAbsentField s then none else some (pyStrip s)

/-- The row validator exactly as the spec words it (section 4.2): all three
fields normalized with null-like tokens treated as absent, skip when all
absent, reject when name or address absent, otherwise accept the normalized
fields (so an accepted phone of "nan" would be absent). -/
def specValidate (r : RawRow) : RowOutcome :=
  if specAbsentField r.name && specAbsentField r.address && specAbsentField r.phone then
    RowOutcome.skipped
  else if specAbsentField r.name || specAbsentField r.address then
    RowOutcome.rejected ("Name and address are required")
  else RowOutcome.accepted (pyStrip r.name) (pyStrip r.address) (specNormField r.phone)

/-- The spec validator amended on one point: an accepted phone is only mapped
to absent when it strips to the empty string; the tokens "nan" and "none" are
kept verbatim in the accepted output. -/
def specValidateAmended (r : RawRow) : RowOutcome :=
  if specAbsentField r.name && specAbsentField r.address && specAbsentField r.phone then
    RowOutcome.skipped
  else if specAbsentField r.name || specAbsentField r.address then
    RowOutcome.rejected ("Name and address are required")
  else RowOutcome.accepted (pyStrip r.name) (pyStrip r.address) (stripOrNone r.phone)

/-- Spec section 8: a row "with at least one non-empty field". -/
def hasNonEmptyField (r : RawRow) : Bool :=
  !specAbsentField r.name || !specAbsentField r.address || !specAbsentField r.phone

/-- Spec section 3: count of candidate rows with at least one non-empty field. -/
def nonEmptyRowCount (rows : List RawRow) : Nat :=
  rows.countP hasNonEmptyField

/-- The `actual_total_count` accumulation of the synchronous endpoints
(hospitals.py lines 241-248, validation.py lines 145-152): incremented for
every row that is not skipped as fully empty. -/
def actual_total_count (rows : List RawRow) : Nat :=
  rows.foldl (fun acc r => if isEmptyRow r then acc else acc + 1) 0

/-- A hospital record (app/models.py class Hospital); the store-assigned id
and timestamp are omitted, the fields the pipeline reads and writes are kept. -/
structure Hospital where
  name : String
  address : String
  phone : Option String
  creation_batch_id : String
  active : Bool
deriving Repr, DecidableEq

/-- One entry of `error_details` (spec section 3: ordered `{row, error, raw_data}`). -/
structure ErrEntry where
  row : Nat
  error : String
  data : RawRow
deriving Repr, DecidableEq

/-- The tracked batch state (app/models.py class BulkOperation); timestamps
omitted, `error_details` kept structured instead of JSON-encoded. -/
structure BulkOperation where
  status : String
  total_rows : Nat
  processed_rows : Nat
  failed_rows : Nat
  current_row : Nat
  error_details : List ErrEntry
  file_content : Option String
deriving Repr, DecidableEq

/-- The BulkOperation created at upload acceptance by the realtime endpoint
(bulk_realtime.py lines 91-100): `total_rows = len(hospitals_data)`, counters
zero, status in_progress, no retained file content. -/
def initialBulkOperation (rows : List RawRow) : BulkOperation :=
  { status := "in_progress", total_rows := rows.length, processed_rows := 0,
    failed_rows := 0, current_row := 0, error_details := [], file_content := none }

/-- One iteration of the realtime ingestion loop
(`process_hospitals_with_sleep`, bulk_realtime.py lines 143-218), at 1-based
row index `idx`: skipped rows change nothing; an accepted row persists an
inactive Hospital and checkpoints `processed_rows`/`current_row`; a rejected
row checkpoints `failed_rows`/`current_row` and appends the error. -/
def stepRow (batchId : String) (idx : Nat) (r : RawRow) :
    BulkOperation × List Hospital → BulkOperation × List Hospital
  | (st, db) =>
    match validateRow r with
    | RowOutcome.skipped => (st, db)
    | RowOutcome.accepted n a p =>
        ({ st with processed_rows := st.processed_rows + 1, current_row := idx },
         db ++ [{ name := n, address := a, phone := p, creation_batch_id := batchId,
                  active := false }])
    | RowOutcome.rejected e =>
        ({ st with failed_rows := st.failed_rows + 1, current_row := idx,
                   error_details := st.error_details ++ [{ row := idx, error := e, data := r }] },
         db)

/-- The realtime ingestion loop over the remaining rows, starting at 1-based
index `idx` (the Python `for idx, row in enumerate(hospitals_data, start=1)`). -/
def runRows (batchId : String) : List RawRow → Nat → BulkOperation × List Hospital →
    BulkOperation × List Hospital
  | [], _, acc => acc
  | r :: rs, idx, acc => runRows batchId rs (idx + 1) (stepRow batchId idx r acc)

/-- The sequence of checkpointed tracker states, one per loop iteration. -/
def runStates (batchId : String) : List RawRow → Nat → BulkOperation × List Hospital →
    List BulkOperation
  | [], _, _ => []
  | r :: rs, idx, acc =>
      (stepRow batchId idx r acc).1 :: runStates batchId rs (idx + 1) (stepRow batchId idx r acc)

/-- All checkpoint states of a fresh realtime batch. -/
def checkpointStates (batchId : String) (rows : List RawRow) : List BulkOperation :=
  runStates batchId rows 1 (initialBulkOperation rows, [])

/-- The final update of the realtime loop (bulk_realtime.py lines 220-235):
zero failed rows activates every Hospital of the batch and marks the batch
completed, otherwise the batch is marked failed and nothing is activated. -/
def finalize (batchId : String) (p : BulkOperation × List Hospital) :
    BulkOperation × List Hospital :=
  if p.1.failed_rows == 0 then
    ({ p.1 with status := "completed" },
     p.2.map (fun h => if h.creation_batch_id == batchId then { h with active := true } else h))
  else
    ({ p.1 with status := "failed" }, p.2)

/-- The whole realtime background ingestion of a fresh batch
(bulk_realtime.py `process_hospitals_with_sleep`). -/
def process_hospitals_with_sleep (batchId : String) (rows : List RawRow) :
    BulkOperation × List Hospital :=
  finalize batchId (runRows batchId rows 1 (initialBulkOperation rows, []))

/-- The standalone activation endpoint (hospitals.py lines 83-95,
`PATCH /hospitals/batch/batch_id/activate`): sets `active` on every Hospital
of the batch, with no precondition beyond the batch having records. -/
def activate_hospitals_by_batch (batchId : String) (db : List Hospital) :
    Except String (List Hospital) :=
  if db.countP (fun h => h.creation_batch_id == batchId) == 0 then
    Except.error ("No hospitals found for batch ID")
  else
    Except.ok (db.map (fun h =>
      if h.creation_batch_id == batchId then { h with active := true } else h))

/-- Boolean success test for an `Except` result. -/
def exceptIsOk {ε α : Type} : Except ε α → Bool
  | Except.ok _ => true
  | Except.error _ => false

/-- The pause endpoint (resume.py lines 186-198): rejects unless the batch is
in_progress, otherwise only the status changes. Returned pair: the stored
state after the request, and the response or error. -/
def pause_bulk_operation (op : BulkOperation) : BulkOperation × Except String String :=
  if !(op.status == "in_progress") then
    (op, Except.error ("Cannot pause operation with status: " ++ op.status))
  else
    ({ op with status := "paused" }, Except.ok ("Operation paused successfully"))

/-- One iteration of the resume loop (resume.py lines 111-164) at 0-based
index `idx0` (the row number is `idx0 + 1`): unlike the realtime loop,
`current_row` is only advanced on success, not on failure. -/
def resumeStep (batchId : String) (idx0 : Nat) (r : RawRow) :
    BulkOperation × List Hospital → BulkOperation × List Hospital
  | (st, db) =>
    match validateRow r with
    | RowOutcome.skipped => (st, db)
    | RowOutcome.accepted n a p =>
        ({ st with processed_rows := st.processed_rows + 1, current_row := idx0 + 1 },
         db ++ [{ name := n, address := a, phone := p, creation_batch_id := batchId,
                  active := false }])
    | RowOutcome.rejected e =>
        ({ st with failed_rows := st.failed_rows + 1,
                   error_details := st.error_details ++ [{ row := idx0 + 1, error := e, data := r }] },
         db)

/-- The resume loop `for idx in range(resume_row - 1, len(hospitals_data))`. -/
def resumeRun (batchId : String) : List RawRow → Nat → BulkOperation × List Hospital →
    BulkOperation × List Hospital
  | [], _, acc => acc
  | r :: rs, idx0, acc => resumeRun batchId rs (idx0 + 1) (resumeStep batchId idx0 r acc)

/-- The resume endpoint (resume.py lines 45-184). `rows` stands for the rows
re-parsed from the retained file content; `db` is the store of Hospitals of
this batch. All rejections (wrong status, no retained content, resume row out
of range) are raised before any mutation, so they return the stored state
unchanged. On acceptance the loop restarts at
`from_row` when given, else `current_row + 1`, accumulating onto the stored
counters, and the final update repeats the all-or-nothing activation decision
on the combined failure count. The Nat result is `resume_row`. -/
def resume_bulk_operation (batchId : String) (op : BulkOperation) (rows : List RawRow)
    (fromRow : Option Nat) (db : List Hospital) :
    BulkOperation × List Hospital × Except String Nat :=
  if !(op.status == "failed" || op.status == "paused") then
    (op, db, Except.error ("Cannot resume operation with status: " ++ op.status))
  else if op.file_content.isNone then
    (op, db, Except.error ("No file content available for resume"))
  else
    let resume_row := fromRow.getD (op.current_row + 1)
    if resume_row < 1 || op.total_rows < resume_row then
      (op, db, Except.error ("Invalid resume row: " ++ toString resume_row))
    else
      let st0 : BulkOperation := { op with status := "in_progress", current_row := resume_row - 1 }
      let r1 := resumeRun batchId (rows.drop (resume_row - 1)) (resume_row - 1) (st0, db)
      if r1.1.failed_rows == 0 then
        ({ r1.1 with status := "completed" },
         r1.2.map (fun h => if h.creation_batch_id == batchId then { h with active := true } else h),
         Except.ok resume_row)
      else
        ({ r1.1 with status := "failed" }, r1.2, Except.ok resume_row)

/-- Positional field assignment of the headerless CSV branch
(`name, address, phone` from the first three columns). -/
def mkPositionalRow (row : List String) : RawRow :=
  { name := pyStrip ((row.get? 0).getD ""), address := pyStrip ((row.get? 1).getD ""),
    phone := pyStrip ((row.get? 2).getD "") }

def min_columns_error (n : Nat) : String :=
  "Row " ++ toString n ++ ": At least 2 columns required (name, address)"

/-- The headerless branch of the synchronous endpoints (hospitals.py lines
194-206, hospitals_optimized.py lines 112-126, validation.py lines 101-115):
a row with fewer than two columns raises, aborting the whole upload; the row
number in the message counts previously kept rows plus one. -/
def parseHeaderlessStrict : List (List String) → List RawRow → Except String (List RawRow)
  | [], acc => Except.ok acc
  | row :: rest, acc =>
    if 2 ≤ row.length then parseHeaderlessStrict rest (acc ++ [mkPositionalRow row])
    else Except.error (min_columns_error (acc.length + 1))

/-- Entry point of the strict headerless parse. -/
def parse_headerless_rows (rows : List (List String)) : Except String (List RawRow) :=
  parseHeaderlessStrict rows []

/-- The headerless branch of the realtime endpoint (bulk_realtime.py lines
71-81): a row with fewer than two columns is silently discarded, with no
recorded error, and the remaining rows are kept. -/
def realtime_headerless : List (List String) → List RawRow
  | [] => []
  | row :: rest =>
    if 2 ≤ row.length then mkPositionalRow row :: realtime_headerless rest
    else realtime_headerless rest

/-- Column attributes of the BulkOperation model (app/models.py lines 33-51). -/
def bulkOperationColumns : List String :=
  ["id", "status", "total_rows", "processed_rows", "failed_rows", "current_row",
   "error_details", "file_content", "created_at", "updated_at", "completed_at"]

/-- Attribute access on the BulkOperation model class, as used to build the
query filter in websockets.py line 44. -/
def modelAttr (a : String) : Except String String :=
  if bulkOperationColumns.contains a then Except.ok a
  else Except.error ("type object BulkOperation has no attribute " ++ a)

/-- Numeric attribute access on a stored BulkOperation row, as used by
websockets.py lines 56-68; only the real columns resolve. -/
def opAttrNat (op : BulkOperation) (a : String) : Except String Nat :=
  if a == "total_rows" then Except.ok op.total_rows
  else if a == "processed_rows" then Except.ok op.processed_rows
  else if a == "failed_rows" then Except.ok op.failed_rows
  else if a == "current_row" then Except.ok op.current_row
  else Except.error ("BulkOperation object has no attribute " ++ a)

/-- Value returned (not raised) by `ConnectionManager.get_progress_update`. -/
inductive ProgressResult where
  | notFound
  | snapshot (batch_id status : String) (total processed failed : Nat)
deriving Repr, DecidableEq

/-- `ConnectionManager.get_progress_update` (websockets.py lines 40-69): the
query filter accesses `models.BulkOperation.batch_id`, and the snapshot reads
`total_hospitals`/`processed_hospitals`/`failed_hospitals`; none of these
attributes exist on the model, so attribute resolution fails. The store is a
list of (primary key, row) pairs. -/
def get_progress_update (db : List (String × BulkOperation)) (batchId : String) :
    Except String ProgressResult := do
  let _ ← modelAttr ("batch_id")
  match db.find? (fun kv => kv.1 == batchId) with
  | none => Except.ok ProgressResult.notFound
  | some kv => do
    let total ← opAttrNat kv.2 ("total_hospitals")
    let processed ← opAttrNat kv.2 ("processed_hospitals")
    let failed ← opAttrNat kv.2 ("failed_hospitals")
    Except.ok (ProgressResult.snapshot batchId kv.2.status total processed failed)

def progressStatus : ProgressResult → String
  | ProgressResult.notFound => ""
  | ProgressResult.snapshot _ s _ _ _ => s

/-- The websocket `progress_monitor` loop (websockets.py lines 105-119),
fuelled: each turn broadcasts the progress update, stops on a terminal
status, and on an exception broadcasts the error and stops. The result is
the list of broadcast payloads. -/
def progress_monitor (db : List (String × BulkOperation)) (batchId : String) :
    Nat → List (Except String ProgressResult)
  | 0 => []
  | Nat.succ fuel =>
    match get_progress_update db batchId with
    | Except.error e => [Except.error ("Progress monitoring error: " ++ e)]
    | Except.ok r =>
      if progressStatus r == "completed" || progressStatus r == "failed" then [Except.ok r]
      else Except.ok r :: progress_monitor db batchId fuel

end App
namespace App

lemma isNullTok_of_empty {s : String} (h : (s == "") = true) : isNullTok s = true := by
  have h2 : s = "" := eq_of_beq h
  subst h2
  rfl

lemma isNone_stripOrNone (s : String) : (stripOrNone s).isNone = (pyStrip s == "") := by
  cases h : pyStrip s == "" <;> simp [stripOrNone, h]

lemma phoneAbsent_normPhone (s : String) : phoneAbsent (stripOrNone s) = specAbsentField s := by
  cases h : pyStrip s == "" with
  | true =>
    have h2 : pyStrip s = "" := eq_of_beq h
    simp [stripOrNone, h, phoneAbsent, specAbsentField, h2]
    rfl
  | false => simp [stripOrNone, h, phoneAbsent, specAbsentField]

lemma isEmptyRow_eq (r : RawRow) :
    isEmptyRow r
      = (specAbsentField r.name && specAbsentField r.address && specAbsentField r.phone) := by
  unfold isEmptyRow normName normAddress normPhone
  rw [isNone_stripOrNone, phoneAbsent_normPhone]
  unfold specAbsentField
  cases hn : pyStrip r.name == "" <;> cases ha : pyStrip r.address == "" <;>
    cases hp : pyStrip r.phone == "" <;>
    simp [isNullTok_of_empty, hn, ha, hp]

lemma missingRequired_eq (r : RawRow) :
    missingRequired r = (specAbsentField r.name || specAbsentField r.address) := by
  unfold missingRequired normName normAddress specAbsentField
  cases hn : pyStrip r.name == "" <;> cases ha : pyStrip r.address == "" <;>
    simp [isNullTok_of_empty, hn, ha]

end App
namespace App

/-- C5: counterexample — a row with a valid name and address and phone "NaN" is
accepted by the code with phone kept as "NaN", while the validator the spec
describes would accept it with the phone absent. -/
theorem C5_counterexample :
    validateRow ⟨"A", "B", "NaN"⟩ ≠ specValidate ⟨"A", "B", "NaN"⟩ := by decide

/-- C5 (amended): the row validator behaves exactly as the spec states it,
except that an accepted phone is only treated as absent when it strips to the
empty string; the null-like tokens "nan"/"none" survive into the accepted
phone field. Skip/reject/accept classification and the accepted name and
address agree with the spec exactly. -/
theorem C5_row_validator_amended (r : RawRow) : validateRow r = specValidateAmended r := by
  unfold validateRow specValidateAmended
  rw [isEmptyRow_eq, missingRequired_eq]
  rfl

lemma foldl_nonEmpty_count (l : List RawRow) :
    ∀ n : Nat, l.foldl (fun acc r => if isEmptyRow r then acc else acc + 1) n
      = n + l.countP hasNonEmptyField := by
  induction l with
  | nil => intro n; simp
  | cons r rs ih =>
    intro n
    have hbr : isEmptyRow r = !hasNonEmptyField r := by
      rw [isEmptyRow_eq]
      unfold hasNonEmptyField
      cases specAbsentField r.name <;> cases specAbsentField r.address <;>
        cases specAbsentField r.phone <;> rfl
    cases h : hasNonEmptyField r with
    | true =>
      simp [List.foldl_cons, List.countP_cons, h, hbr, ih]
      omega
    | false =>
      simp [List.foldl_cons, List.countP_cons, h, hbr, ih]

/-- C3: counterexample — an upload whose parsed candidate rows are one fully
empty row and one valid row is tracked with `total_rows = 2`, while only one
row has a non-empty field. -/
theorem C3_counterexample :
    (initialBulkOperation [⟨"", "", ""⟩, ⟨"A", "B", ""⟩]).total_rows
      ≠ nonEmptyRowCount [⟨"", "", ""⟩, ⟨"A", "B", ""⟩] := by decide

/-- C3 (amended): the tracked `total_rows` of a realtime batch equals the
number of all parsed candidate rows, fully-empty rows included; it is the
synchronous endpoints whose reported total (`actual_total_count`) equals the
number of rows with at least one non-empty field. -/
theorem C3_total_rows_amended (rows : List RawRow) :
    (initialBulkOperation rows).total_rows = rows.length
      ∧ actual_total_count rows = nonEmptyRowCount rows := by
  constructor
  · rfl
  · unfold actual_total_count nonEmptyRowCount
    rw [foldl_nonEmpty_count]
    omega

end App
namespace App

lemma stepRow_db_inactive (batchId : String) (idx : Nat) (r : RawRow)
    (st : BulkOperation) (db : List Hospital)
    (hdb : ∀ h ∈ db, h.active = false ∧ h.creation_batch_id = batchId) :
    ∀ h ∈ (stepRow batchId idx r (st, db)).2, h.active = false ∧ h.creation_batch_id = batchId := by
  cases hv : validateRow r with
  | skipped => simpa [stepRow, hv] using hdb
  | rejected e => simpa [stepRow, hv] using hdb
  | accepted n a p =>
    intro h hm
    simp only [stepRow, hv, List.mem_append, List.mem_singleton] at hm
    rcases hm with hm | hm
    · exact hdb h hm
    · subst hm; exact ⟨rfl, rfl⟩

lemma runRows_db_inactive (batchId : String) :
    ∀ (rows : List RawRow) (idx : Nat) (st : BulkOperation) (db : List Hospital),
      (∀ h ∈ db, h.active = false ∧ h.creation_batch_id = batchId) →
      ∀ h ∈ (runRows batchId rows idx (st, db)).2,
        h.active = false ∧ h.creation_batch_id = batchId := by
  intro rows
  induction rows with
  | nil => intro idx st db hdb; simpa [runRows] using hdb
  | cons r rs ih =>
    intro idx st db hdb
    have hstep := stepRow_db_inactive batchId idx r st db hdb
    simp only [runRows]
    have : stepRow batchId idx r (st, db)
        = ((stepRow batchId idx r (st, db)).1, (stepRow batchId idx r (st, db)).2) := rfl
    rw [this]
    exact ih (idx + 1) _ _ hstep

lemma finalize_failed_rows (batchId : String) (p : BulkOperation × List Hospital) :
    (finalize batchId p).1.failed_rows = p.1.failed_rows := by
  unfold finalize
  split <;> rfl

/-- C1: on completion of the realtime batch ingestion, zero failed rows with at
least one processed row means every Hospital of the batch is active and the
BulkOperation status is completed; any failed row means no Hospital of the
batch was activated by the engine and the status is failed. -/
theorem C1_all_or_nothing_activation (batchId : String) (rows : List RawRow) :
    ((process_hospitals_with_sleep batchId rows).1.failed_rows = 0 →
      0 < (process_hospitals_with_sleep batchId rows).1.processed_rows →
      (∀ h ∈ (process_hospitals_with_sleep batchId rows).2, h.active = true)
        ∧ (process_hospitals_with_sleep batchId rows).1.status = "completed")
    ∧ (0 < (process_hospitals_with_sleep batchId rows).1.failed_rows →
      (∀ h ∈ (process_hospitals_with_sleep batchId rows).2, h.active = false)
        ∧ (process_hospitals_with_sleep batchId rows).1.status = "failed") := by
  have hin : ∀ h ∈ (runRows batchId rows 1 (initialBulkOperation rows, [])).2,
      h.active = false ∧ h.creation_batch_id = batchId :=
    runRows_db_inactive batchId rows 1 _ [] (by intro h hm; cases hm)
  unfold process_hospitals_with_sleep
  cases hf : (runRows batchId rows 1 (initialBulkOperation rows, [])).1.failed_rows == 0 with
  | true =>
    constructor
    · intro _ _
      constructor
      · intro h hm
        simp only [finalize, hf, if_true] at hm
        rcases List.mem_map.mp hm with ⟨h0, hh0, rfl⟩
        have hb : (h0.creation_batch_id == batchId) = true :=
          beq_iff_eq.mpr (hin h0 hh0).2
        simp [hb]
      · simp [finalize, hf]
    · intro hpos
      rw [finalize_failed_rows] at hpos
      have hf0 := eq_of_beq hf
      omega
  | false =>
    constructor
    · intro h0f _
      rw [finalize_failed_rows] at h0f
      exact absurd h0f (ne_of_beq_false hf)
    · intro _
      constructor
      · intro h hm
        simp only [finalize, hf, if_false] at hm
        exact (hin h hm).1
      · simp [finalize, hf]

end App
namespace App

/-- Witness for C1 at concrete batches: one all-accepted row activates and
completes; one rejected row leaves the record set inactive and fails. -/
theorem C1_witness :
    ((∀ h ∈ (process_hospitals_with_sleep ("b") [⟨"A", "B", "1"⟩]).2, h.active = true)
      ∧ (process_hospitals_with_sleep ("b") [⟨"A", "B", "1"⟩]).1.status = "completed")
    ∧ ((∀ h ∈ (process_hospitals_with_sleep ("b") [⟨"A", "", ""⟩]).2, h.active = false)
      ∧ (process_hospitals_with_sleep ("b") [⟨"A", "", ""⟩]).1.status = "failed") :=
  ⟨(C1_all_or_nothing_activation ("b") [⟨"A", "B", "1"⟩]).1 (by decide) (by decide),
   (C1_all_or_nothing_activation ("b") [⟨"A", "", ""⟩]).2 (by decide)⟩

/-- C2: counterexample — the standalone activation endpoint flips a record of
a batch whose tracker shows a failed row (failed_rows = 1) to active, so an
exposed operation can activate a record of a batch that has failures. -/
theorem C2_counterexample :
    0 < (process_hospitals_with_sleep ("b") [⟨"A", "Ad", ""⟩, ⟨"", "Ad2", ""⟩]).1.failed_rows
    ∧ (process_hospitals_with_sleep ("b") [⟨"A", "Ad", ""⟩, ⟨"", "Ad2", ""⟩]).2
        = [⟨"A", "Ad", none, "b", false⟩]
    ∧ activate_hospitals_by_batch ("b") [⟨"A", "Ad", none, "b", false⟩]
        = Except.ok [⟨"A", "Ad", none, "b", true⟩] :=
  ⟨by decide, rfl, rfl⟩

/-- C2 (amended): within the batch ingestion engine a record only ends active
when its batch run finishes with zero row failures (and status completed);
the standalone activation endpoint, however, activates every record of an
existing batch unconditionally, with no failure check. -/
theorem C2_activation_guard :
    (∀ (batchId : String) (rows : List RawRow),
      ∀ h ∈ (process_hospitals_with_sleep batchId rows).2, h.active = true →
        (process_hospitals_with_sleep batchId rows).1.failed_rows = 0
          ∧ (process_hospitals_with_sleep batchId rows).1.status = "completed")
    ∧ (∀ (batchId : String) (db out : List Hospital),
      activate_hospitals_by_batch batchId db = Except.ok out →
        ∀ h ∈ out, h.creation_batch_id = batchId → h.active = true) := by
  constructor
  · intro batchId rows h hm ha
    have hin : ∀ h ∈ (runRows batchId rows 1 (initialBulkOperation rows, [])).2,
        h.active = false ∧ h.creation_batch_id = batchId :=
      runRows_db_inactive batchId rows 1 _ [] (by intro h hm; cases hm)
    unfold process_hospitals_with_sleep at hm ⊢
    cases hf : (runRows batchId rows 1 (initialBulkOperation rows, [])).1.failed_rows == 0 with
    | true =>
      refine ⟨?_, by simp [finalize, hf]⟩
      rw [finalize_failed_rows]
      exact eq_of_beq hf
    | false =>
      simp only [finalize, hf, if_false] at hm
      exact absurd ha (by simp [(hin h hm).1])
  · intro batchId db out hok h hm hb
    unfold activate_hospitals_by_batch at hok
    cases hz : db.countP (fun h => h.creation_batch_id == batchId) == 0 with
    | true => rw [hz] at hok; simp at hok
    | false =>
      rw [hz] at hok
      simp only [Bool.false_eq_true, if_false, Except.ok.injEq] at hok
      subst hok
      rcases List.mem_map.mp hm with ⟨h0, hh0, rfl⟩
      cases hbb : h0.creation_batch_id == batchId with
      | true => simp [hbb]
      | false =>
        simp only [hbb, if_false] at hb ⊢
        exact absurd hb (ne_of_beq_false hbb)

/-- Witness for C2 (amended) at a concrete batch with one accepted row. -/
theorem C2_witness :
    (process_hospitals_with_sleep ("b") [⟨"A", "B", ""⟩]).1.failed_rows = 0
    ∧ (process_hospitals_with_sleep ("b") [⟨"A", "B", ""⟩]).1.status = "completed" :=
  C2_activation_guard.1 ("b") [⟨"A", "B", ""⟩] ⟨"A", "B", none, "b", true⟩
    (by decide) (by decide)

end App
namespace App

lemma runStates_inv (batchId : String) :
    ∀ (rows : List RawRow) (idx : Nat) (st : BulkOperation) (db : List Hospital),
      st.processed_rows + st.failed_rows ≤ st.current_row →
      st.current_row < idx →
      idx + rows.length ≤ st.total_rows + 1 →
      ∀ s ∈ runStates batchId rows idx (st, db),
        s.processed_rows + s.failed_rows ≤ s.current_row ∧ s.current_row ≤ s.total_rows := by
  intro rows
  induction rows with
  | nil => intro idx st db _ _ _ s hs; simp [runStates] at hs
  | cons r rs ih =>
    intro idx st db hcnt hlt hbound s hs
    simp only [runStates, List.mem_cons] at hs
    have hidx : idx ≤ st.total_rows := by
      simp only [List.length_cons] at hbound; omega
    cases hv : validateRow r with
    | skipped =>
      simp only [stepRow, hv] at hs
      rcases hs with rfl | hs
      · exact ⟨hcnt, by omega⟩
      · refine ih (idx + 1) st db hcnt (by omega) ?_ s hs
        simp only [List.length_cons] at hbound; omega
    | accepted n a p =>
      simp only [stepRow, hv] at hs
      rcases hs with rfl | hs
      · exact ⟨by simp; omega, by simp; omega⟩
      · refine ih (idx + 1) _ _ (by simp <;> omega) (by simp <;> omega) ?_ s hs
        simp only [List.length_cons] at hbound
        simp
        omega
    | rejected e =>
      simp only [stepRow, hv] at hs
      rcases hs with rfl | hs
      · exact ⟨by simp; omega, by simp; omega⟩
      · refine ih (idx + 1) _ _ (by simp <;> omega) (by simp <;> omega) ?_ s hs
        simp only [List.length_cons] at hbound
        simp
        omega

lemma runRows_no_skip (batchId : String) :
    ∀ (rows : List RawRow) (idx : Nat) (st : BulkOperation) (db : List Hospital),
      (∀ r ∈ rows, validateRow r ≠ RowOutcome.skipped) →
      st.processed_rows + st.failed_rows = st.current_row →
      st.current_row + 1 = idx →
      (runRows batchId rows idx (st, db)).1.processed_rows
          + (runRows batchId rows idx (st, db)).1.failed_rows
        = (runRows batchId rows idx (st, db)).1.current_row := by
  intro rows
  induction rows with
  | nil => intro idx st db _ heq _; simpa [runRows] using heq
  | cons r rs ih =>
    intro idx st db hns heq hidx
    have hr : validateRow r ≠ RowOutcome.skipped := hns r (List.mem_cons_self r rs)
    simp only [runRows]
    cases hv : validateRow r with
    | skipped => exact absurd hv hr
    | accepted n a p =>
      simp only [stepRow, hv]
      exact ih (idx + 1) _ _ (fun x hx => hns x (List.mem_cons_of_mem r hx))
        (by simp <;> omega) (by simp)
    | rejected e =>
      simp only [stepRow, hv]
      exact ih (idx + 1) _ _ (fun x hx => hns x (List.mem_cons_of_mem r hx))
        (by simp <;> omega) (by simp)

lemma finalize_counts (batchId : String) (p : BulkOperation × List Hospital) :
    (finalize batchId p).1.processed_rows = p.1.processed_rows
    ∧ (finalize batchId p).1.failed_rows = p.1.failed_rows
    ∧ (finalize batchId p).1.current_row = p.1.current_row := by
  unfold finalize
  split <;> exact ⟨rfl, rfl, rfl⟩

/-- C4: counterexample — a batch of a fully-empty row followed by a valid row
reaches the terminal status completed with processed_rows + failed_rows = 1
but current_row = 2: the terminal equality of the claim fails whenever a
skipped row precedes a processed one. -/
theorem C4_counterexample :
    (process_hospitals_with_sleep ("b") [⟨"", "", ""⟩, ⟨"A", "B", ""⟩]).1.status = "completed"
    ∧ (process_hospitals_with_sleep ("b") [⟨"", "", ""⟩, ⟨"A", "B", ""⟩]).1.processed_rows
        + (process_hospitals_with_sleep ("b") [⟨"", "", ""⟩, ⟨"A", "B", ""⟩]).1.failed_rows
      ≠ (process_hospitals_with_sleep ("b") [⟨"", "", ""⟩, ⟨"A", "B", ""⟩]).1.current_row := by
  exact ⟨rfl, by decide⟩

/-- C4 (amended): at every checkpoint of a realtime batch,
`processed_rows + failed_rows ≤ current_row ≤ total_rows`; and the terminal
equality `processed_rows + failed_rows = current_row` holds provided no
candidate row is skipped as fully empty (skipped rows advance neither
counter, while a later row sets `current_row` to its absolute index). -/
theorem C4_progress_invariant (batchId : String) (rows : List RawRow) :
    (∀ s ∈ checkpointStates batchId rows,
      s.processed_rows + s.failed_rows ≤ s.current_row ∧ s.current_row ≤ s.total_rows)
    ∧ ((∀ r ∈ rows, validateRow r ≠ RowOutcome.skipped) →
      (process_hospitals_with_sleep batchId rows).1.processed_rows
          + (process_hospitals_with_sleep batchId rows).1.failed_rows
        = (process_hospitals_with_sleep batchId rows).1.current_row) := by
  constructor
  · exact runStates_inv batchId rows 1 (initialBulkOperation rows) []
      (by simp [initialBulkOperation]) (by simp [initialBulkOperation])
      (by simp [initialBulkOperation] <;> omega)
  · intro hns
    unfold process_hospitals_with_sleep
    rcases finalize_counts batchId (runRows batchId rows 1 (initialBulkOperation rows, []))
      with ⟨hp, hf, hc⟩
    rw [hp, hf, hc]
    exact runRows_no_skip batchId rows 1 (initialBulkOperation rows) [] hns rfl rfl

/-- Witness for C4 at a concrete one-row batch: the checkpoint invariant at
its single checkpoint state, and the terminal equality with the no-skip
hypothesis discharged. -/
theorem C4_witness :
    ({ status := "in_progress", total_rows := 1, processed_rows := 1, failed_rows := 0,
       current_row := 1, error_details := [], file_content := none } : BulkOperation).processed_rows
        + ({ status := "in_progress", total_rows := 1, processed_rows := 1, failed_rows := 0,
             current_row := 1, error_details := [], file_content := none } : BulkOperation).failed_rows
      ≤ 1
    ∧ (process_hospitals_with_sleep ("b") [⟨"A", "B", ""⟩]).1.processed_rows
          + (process_hospitals_with_sleep ("b") [⟨"A", "B", ""⟩]).1.failed_rows
        = (process_hospitals_with_sleep ("b") [⟨"A", "B", ""⟩]).1.current_row :=
  ⟨((C4_progress_invariant ("b") [⟨"A", "B", ""⟩]).1 _ (by decide)).1,
   (C4_progress_invariant ("b") [⟨"A", "B", ""⟩]).2 (by decide)⟩

end App
namespace App

lemma resumeRun_mono (batchId : String) :
    ∀ (rows : List RawRow) (idx0 : Nat) (st : BulkOperation) (db : List Hospital),
      st.processed_rows ≤ (resumeRun batchId rows idx0 (st, db)).1.processed_rows
      ∧ st.failed_rows ≤ (resumeRun batchId rows idx0 (st, db)).1.failed_rows
      ∧ ∃ t, (resumeRun batchId rows idx0 (st, db)).1.error_details = st.error_details ++ t := by
  intro rows
  induction rows with
  | nil => intro idx0 st db; exact ⟨le_refl _, le_refl _, [], by simp [resumeRun]⟩
  | cons r rs ih =>
    intro idx0 st db
    simp only [resumeRun]
    cases hv : validateRow r with
    | skipped =>
      simp only [resumeStep, hv]
      exact ih (idx0 + 1) st db
    | accepted n a p =>
      simp only [resumeStep, hv]
      rcases ih (idx0 + 1)
          { st with processed_rows := st.processed_rows + 1, current_row := idx0 + 1 }
          (db ++ [{ name := n, address := a, phone := p, creation_batch_id := batchId,
                    active := false }]) with ⟨h1, h2, t, ht⟩
      exact ⟨by simp at h1 ⊢; omega, h2, t, ht⟩
    | rejected e =>
      simp only [resumeStep, hv]
      rcases ih (idx0 + 1)
          { st with failed_rows := st.failed_rows + 1,
                    error_details := st.error_details ++ [{ row := idx0 + 1, error := e, data := r }] }
          db with ⟨h1, h2, t, ht⟩
      refine ⟨h1, by simp at h2 ⊢; omega, { row := idx0 + 1, error := e, data := r } :: t, ?_⟩
      simpa using ht

/-- C6: counterexample — a paused batch with checkpoint current_row = 2 and 2
processed rows, resumed with requested from_row = 1, restarts at row 1 (the
accepted resume row reported is 1, not max(2, 1) = 2), re-processing the two
already-ingested rows: the final processed_rows is 5 on a batch of 3 rows. -/
theorem C6_counterexample :
    (resume_bulk_operation ("b")
        { status := "paused", total_rows := 3, processed_rows := 2, failed_rows := 0,
          current_row := 2, error_details := [], file_content := some ("c") }
        [⟨"A", "B", ""⟩, ⟨"C", "D", ""⟩, ⟨"E", "F", ""⟩] (some 1)
        [⟨"A", "B", none, "b", false⟩, ⟨"C", "D", none, "b", false⟩]).2.2 = Except.ok 1
    ∧ (1 : Nat) ≠ max 2 1
    ∧ (resume_bulk_operation ("b")
        { status := "paused", total_rows := 3, processed_rows := 2, failed_rows := 0,
          current_row := 2, error_details := [], file_content := some ("c") }
        [⟨"A", "B", ""⟩, ⟨"C", "D", ""⟩, ⟨"E", "F", ""⟩] (some 1)
        [⟨"A", "B", none, "b", false⟩, ⟨"C", "D", none, "b", false⟩]).1.processed_rows = 5 :=
  ⟨rfl, by decide, rfl⟩

/-- C6 (amended): an accepted resume of a failed or paused batch restarts at
the requested from_row when one is given — validated only to lie within
1..total_rows, even when it precedes the checkpoint, re-processing earlier
rows — and at current_row + 1 otherwise; the previously accumulated
processed_rows, failed_rows and error_details are preserved and only
appended to, never reset. -/
theorem C6_resume_amended (batchId : String) (op : BulkOperation) (rows : List RawRow)
    (fromRow : Option Nat) (db : List Hospital) (st' : BulkOperation)
    (db' : List Hospital) (r : Nat)
    (hok : resume_bulk_operation batchId op rows fromRow db = (st', db', Except.ok r)) :
    r = fromRow.getD (op.current_row + 1)
    ∧ op.processed_rows ≤ st'.processed_rows
    ∧ op.failed_rows ≤ st'.failed_rows
    ∧ ∃ t, st'.error_details = op.error_details ++ t := by
  unfold resume_bulk_operation at hok
  split at hok
  · simp at hok
  · split at hok
    · simp at hok
    · dsimp only at hok
      split at hok
      · simp at hok
      · rcases resumeRun_mono batchId (rows.drop (fromRow.getD (op.current_row + 1) - 1))
            (fromRow.getD (op.current_row + 1) - 1)
            { op with status := "in_progress",
                      current_row := fromRow.getD (op.current_row + 1) - 1 } db
          with ⟨hp, hf, t, ht⟩
        split at hok
        · simp only [Prod.mk.injEq, Except.ok.injEq] at hok
          rcases hok with ⟨hst, _, hr⟩
          subst hst
          exact ⟨hr.symm, by simpa using hp, by simpa using hf, t, by simpa using ht⟩
        · simp only [Prod.mk.injEq, Except.ok.injEq] at hok
          rcases hok with ⟨hst, _, hr⟩
          subst hst
          exact ⟨hr.symm, by simpa using hp, by simpa using hf, t, by simpa using ht⟩

/-- Witness for C6 (amended) at a concrete accepted resume of a paused batch. -/
theorem C6_witness :
    (1 : Nat) = (some 1 : Option Nat).getD
        (({ status := "paused", total_rows := 3, processed_rows := 2, failed_rows := 0,
            current_row := 2, error_details := [], file_content := some ("c") } :
          BulkOperation).current_row + 1)
    ∧ ({ status := "paused", total_rows := 3, processed_rows := 2, failed_rows := 0,
         current_row := 2, error_details := [], file_content := some ("c") } :
        BulkOperation).processed_rows ≤ 5
    ∧ ({ status := "paused", total_rows := 3, processed_rows := 2, failed_rows := 0,
         current_row := 2, error_details := [], file_content := some ("c") } :
        BulkOperation).failed_rows ≤ 0
    ∧ ∃ t, ([] : List ErrEntry)
        = ({ status := "paused", total_rows := 3, processed_rows := 2, failed_rows := 0,
             current_row := 2, error_details := [], file_content := some ("c") } :
           BulkOperation).error_details ++ t := by
  have h := C6_resume_amended ("b")
    { status := "paused", total_rows := 3, processed_rows := 2, failed_rows := 0,
      current_row := 2, error_details := [], file_content := some ("c") }
    [⟨"A", "B", ""⟩, ⟨"C", "D", ""⟩, ⟨"E", "F", ""⟩] (some 1)
    [⟨"A", "B", none, "b", false⟩, ⟨"C", "D", none, "b", false⟩]
    { status := "completed", total_rows := 3, processed_rows := 5, failed_rows := 0,
      current_row := 3, error_details := [], file_content := some ("c") }
    [⟨"A", "B", none, "b", true⟩, ⟨"C", "D", none, "b", true⟩, ⟨"A", "B", none, "b", true⟩,
     ⟨"C", "D", none, "b", true⟩, ⟨"E", "F", none, "b", true⟩] 1 rfl
  exact h

end App
namespace App

/-- C7: a pause request is accepted exactly when the batch is in_progress and
otherwise rejected with the stored state unchanged; a resume request on a
batch that is neither failed nor paused, or on one with no retained file
content, is rejected with both the stored batch state and the record store
unchanged. -/
theorem C7_state_errors (batchId : String) (op : BulkOperation) (rows : List RawRow)
    (fromRow : Option Nat) (db : List Hospital) :
    (exceptIsOk (pause_bulk_operation op).2 = true ↔ op.status = "in_progress")
    ∧ (exceptIsOk (pause_bulk_operation op).2 = false → (pause_bulk_operation op).1 = op)
    ∧ (op.status ≠ "failed" → op.status ≠ "paused" →
        (resume_bulk_operation batchId op rows fromRow db).1 = op
        ∧ (resume_bulk_operation batchId op rows fromRow db).2.1 = db
        ∧ exceptIsOk (resume_bulk_operation batchId op rows fromRow db).2.2 = false)
    ∧ (op.file_content = none →
        (resume_bulk_operation batchId op rows fromRow db).1 = op
        ∧ (resume_bulk_operation batchId op rows fromRow db).2.1 = db
        ∧ exceptIsOk (resume_bulk_operation batchId op rows fromRow db).2.2 = false) := by
  refine ⟨?_, ?_, ?_, ?_⟩
  · cases hp : op.status == "in_progress" with
    | true =>
      simp only [pause_bulk_operation, hp, Bool.not_true, Bool.false_eq_true, if_false,
        exceptIsOk]
      simp [eq_of_beq hp]
    | false =>
      simp only [pause_bulk_operation, hp, Bool.not_false, if_true, exceptIsOk]
      simp [ne_of_beq_false hp]
  · cases hp : op.status == "in_progress" with
    | true => simp [pause_bulk_operation, hp, exceptIsOk]
    | false => simp [pause_bulk_operation, hp, exceptIsOk]
  · intro hf hpz
    have h1 : (op.status == "failed") = false := beq_eq_false_iff_ne.mpr hf
    have h2 : (op.status == "paused") = false := beq_eq_false_iff_ne.mpr hpz
    simp [resume_bulk_operation, h1, h2, exceptIsOk]
  · intro hc
    by_cases hst : (op.status == "failed" || op.status == "paused") = true
    · simp [resume_bulk_operation, hst, hc, exceptIsOk]
    · rw [Bool.not_eq_true] at hst
      simp [resume_bulk_operation, hst, exceptIsOk]

/-- Witness for C7 at a completed batch with no retained content: both the
pause rejection and the resume rejection leave the state unchanged. -/
theorem C7_witness :
    (exceptIsOk (pause_bulk_operation
        { status := "completed", total_rows := 1, processed_rows := 1, failed_rows := 0,
          current_row := 1, error_details := [], file_content := none }).2 = false →
      (pause_bulk_operation
        { status := "completed", total_rows := 1, processed_rows := 1, failed_rows := 0,
          current_row := 1, error_details := [], file_content := none }).1
        = { status := "completed", total_rows := 1, processed_rows := 1, failed_rows := 0,
            current_row := 1, error_details := [], file_content := none })
    ∧ ((resume_bulk_operation ("b")
          { status := "completed", total_rows := 1, processed_rows := 1, failed_rows := 0,
            current_row := 1, error_details := [], file_content := none } [] none []).1
        = { status := "completed", total_rows := 1, processed_rows := 1, failed_rows := 0,
            current_row := 1, error_details := [], file_content := none }
      ∧ (resume_bulk_operation ("b")
          { status := "completed", total_rows := 1, processed_rows := 1, failed_rows := 0,
            current_row := 1, error_details := [], file_content := none } [] none []).2.1 = []
      ∧ exceptIsOk (resume_bulk_operation ("b")
          { status := "completed", total_rows := 1, processed_rows := 1, failed_rows := 0,
            current_row := 1, error_details := [], file_content := none } [] none []).2.2
          = false) :=
  ⟨(C7_state_errors ("b")
      { status := "completed", total_rows := 1, processed_rows := 1, failed_rows := 0,
        current_row := 1, error_details := [], file_content := none } [] none []).2.1,
   (C7_state_errors ("b")
      { status := "completed", total_rows := 1, processed_rows := 1, failed_rows := 0,
        current_row := 1, error_details := [], file_content := none } [] none []).2.2.1
     (by decide) (by decide)⟩

end App
namespace App

/-- C8 is right about the intended protocol and wrong about the code: the
realtime ingestion loop never reads the batch status. Evaluated at the
failing input — a two-row batch paused after its first row (the pause request
is accepted while the loop is between rows) — the loop still processes the
second row and the final update overwrites the paused status with completed,
activating the batch. -/
theorem C8_pause_ignored :
    exceptIsOk (pause_bulk_operation
        (stepRow ("b") 1 ⟨"A", "B", ""⟩
          (initialBulkOperation [⟨"A", "B", ""⟩, ⟨"C", "D", ""⟩], [])).1).2 = true
    ∧ (pause_bulk_operation
        (stepRow ("b") 1 ⟨"A", "B", ""⟩
          (initialBulkOperation [⟨"A", "B", ""⟩, ⟨"C", "D", ""⟩], [])).1).1.status = "paused"
    ∧ (finalize ("b") (runRows ("b") [⟨"C", "D", ""⟩] 2
        ((pause_bulk_operation
            (stepRow ("b") 1 ⟨"A", "B", ""⟩
              (initialBulkOperation [⟨"A", "B", ""⟩, ⟨"C", "D", ""⟩], [])).1).1,
         (stepRow ("b") 1 ⟨"A", "B", ""⟩
            (initialBulkOperation [⟨"A", "B", ""⟩, ⟨"C", "D", ""⟩], [])).2))).1.status
        = "completed"
    ∧ (finalize ("b") (runRows ("b") [⟨"C", "D", ""⟩] 2
        ((pause_bulk_operation
            (stepRow ("b") 1 ⟨"A", "B", ""⟩
              (initialBulkOperation [⟨"A", "B", ""⟩, ⟨"C", "D", ""⟩], [])).1).1,
         (stepRow ("b") 1 ⟨"A", "B", ""⟩
            (initialBulkOperation [⟨"A", "B", ""⟩, ⟨"C", "D", ""⟩], [])).2))).1.processed_rows
        = 2
    ∧ (finalize ("b") (runRows ("b") [⟨"C", "D", ""⟩] 2
        ((pause_bulk_operation
            (stepRow ("b") 1 ⟨"A", "B", ""⟩
              (initialBulkOperation [⟨"A", "B", ""⟩, ⟨"C", "D", ""⟩], [])).1).1,
         (stepRow ("b") 1 ⟨"A", "B", ""⟩
            (initialBulkOperation [⟨"A", "B", ""⟩, ⟨"C", "D", ""⟩], [])).2))).2.length = 2 := by
  exact ⟨rfl, rfl, rfl, rfl, rfl⟩

/-- C9: counterexample — on the headerless input rows ["A", "B"] and ["C"],
the synchronous parse aborts the whole upload with the minimum-columns error,
instead of recording a per-row rejection; the realtime parse keeps the other
row but records no error at all for the short one. -/
theorem C9_counterexample :
    parse_headerless_rows [["A", "B"], ["C"]] = Except.error (min_columns_error 2)
    ∧ realtime_headerless [["A", "B"], ["C"]] = [⟨"A", "B", ""⟩] :=
  ⟨rfl, rfl⟩

lemma parseHeaderlessStrict_short (row : List String) (hrow : row.length < 2) :
    ∀ (pre suf : List (List String)) (acc : List RawRow),
      ∃ e, parseHeaderlessStrict (pre ++ row :: suf) acc = Except.error e := by
  intro pre
  induction pre with
  | nil =>
    intro suf acc
    refine ⟨min_columns_error (acc.length + 1), ?_⟩
    simp only [List.nil_append, parseHeaderlessStrict]
    have h2 : ¬(2 ≤ row.length) := by omega
    simp [h2]
  | cons p ps ih =>
    intro suf acc
    simp only [List.cons_append, parseHeaderlessStrict]
    by_cases hp : 2 ≤ p.length
    · simp only [hp, if_true]
      exact ih suf (acc ++ [mkPositionalRow p])
    · simp only [hp, if_false]
      exact ⟨min_columns_error (acc.length + 1), rfl⟩

lemma realtime_headerless_append (xs ys : List (List String)) :
    realtime_headerless (xs ++ ys) = realtime_headerless xs ++ realtime_headerless ys := by
  induction xs with
  | nil => simp [realtime_headerless]
  | cons x xs ih =>
    simp only [List.cons_append, realtime_headerless]
    by_cases hx : 2 ≤ x.length
    · simp [hx, ih]
    · simp [hx, ih]

/-- C9 (amended): in the synchronous endpoints a headerless row with fewer
than two columns aborts the entire upload with a minimum-columns error; in
the realtime endpoint such a row is silently discarded with no recorded
error, while every other row is still parsed. Neither variant records a
per-row minimum-columns rejection. -/
theorem C9_min_columns_amended (pre suf : List (List String)) (row : List String)
    (hrow : row.length < 2) :
    (∃ e, parse_headerless_rows (pre ++ row :: suf) = Except.error e)
    ∧ realtime_headerless (pre ++ row :: suf)
        = realtime_headerless pre ++ realtime_headerless suf := by
  constructor
  · exact parseHeaderlessStrict_short row hrow pre suf []
  · rw [realtime_headerless_append]
    have h2 : ¬(2 ≤ row.length) := by omega
    simp [realtime_headerless, h2]

/-- Witness for C9 at the concrete short row ["C"]. -/
theorem C9_witness :
    (∃ e, parse_headerless_rows ([["A", "B"]] ++ ["C"] :: []) = Except.error e)
    ∧ realtime_headerless ([["A", "B"]] ++ ["C"] :: [])
        = realtime_headerless [["A", "B"]] ++ realtime_headerless [] :=
  C9_min_columns_amended [["A", "B"]] [] ["C"] (by decide)

/-- C10: for every store and every batch id, `get_progress_update` fails with
an attribute error (the BulkOperation model has no `batch_id` column, nor the
snapshot attributes the code reads) instead of returning a progress snapshot,
and the websocket progress monitor (any positive fuel) broadcasts exactly one
error payload and terminates. -/
theorem C10_websocket_progress (db : List (String × BulkOperation)) (batchId : String)
    (fuel : Nat) (hfuel : 0 < fuel) :
    get_progress_update db batchId
        = Except.error ("type object BulkOperation has no attribute batch_id")
    ∧ progress_monitor db batchId fuel
        = [Except.error
            ("Progress monitoring error: type object BulkOperation has no attribute batch_id")] := by
  cases fuel with
  | zero => exact absurd hfuel (by omega)
  | succ n => exact ⟨rfl, rfl⟩

/-- Witness for C10 with an empty store, a concrete batch id and fuel 1. -/
theorem C10_witness :
    get_progress_update [] ("b")
        = Except.error ("type object BulkOperation has no attribute batch_id")
    ∧ progress_monitor [] ("b") 1
        = [Except.error
            ("Progress monitoring error: type object BulkOperation has no attribute batch_id")] :=
  C10_websocket_progress [] ("b") 1 (by decide)

end App
